import Mathlib

/-!
Shallow embedding of `src/app.py` (property recommendation service).

Machine numbers appearing in the pipeline (prices, coordinates, scores) are
modelled as exact rationals `ℚ`.  The two transcendental numeric routines of
the source — the haversine distance (`calculate_haversine`, numpy trig) and
`np.log1p` — and the opaque pre-trained artifact (the `preprocessor` feature
transform composed with the sklearn cosine-distance `NearestNeighbors`) cannot be
evaluated exactly in ℚ; the pipeline is therefore parametrised over
  * `hv : ℚ → ℚ → ℚ → ℚ → ℚ`   — the numeric distance function,
  * `log1p : ℚ → ℚ`             — the numeric `np.log1p`,
  * `cosDist : QueryRec → Listing → ℚ` — cosine distance of the feature vector of a pool row to the synthetic query vector,
while the ideal real-valued haversine formula itself is embedded separately
over `ℝ` (`calculate_haversine` below) for its algebraic properties.
All structural claims hold for every instantiation of these parameters.

The unknown-location fallback of the source (pandas `str.contains` with its
default `regex=True` and `case=False`) performs a case-insensitive regular
expression search, raising `re.error` on an invalid pattern; the surrounding
`except` turns that into an error envelope.  This is embedded as an
executable matcher (`parseRe` / `searchRe`) for the pattern fragment built
from literal characters, the dot wildcard, and the quantifiers `*`, `+` and
`?` applied to a single atom; a pattern using any other metacharacter is
conservatively mapped to the exception path.  (Python additionally accepts a
few constructs outside this fragment — anchors, alternation, classes, lone
closing braces — which the model also maps to the exception path.)  The fixed
region pattern "dubai" is metacharacter-free, where a regex search and a
literal substring search provably coincide (`containsCI_dubai_matches_regex`).
-/

namespace PFRec

/-- One row of the listings table `df_model` (the columns the pipeline reads). -/
structure Listing where
  property_listing_id : Nat
  price : ℚ
  size_sqft : ℚ
  beds_int : Nat
  bath_int : Nat
  property_type : String
  offering_type : String
  latitude : ℚ
  longitude : ℚ
  location_name : String
  full_location_path : String
  smart_popularity_score : ℚ
  days_old : ℚ
deriving DecidableEq, Repr

/-- The JSON body of a `/recommend` request (`data` in `recommend`). -/
structure Query where
  price : ℚ
  bedrooms : String
  property_type : String
  offering_type : String
  location_filter : Option String
deriving DecidableEq, Repr

/-- The synthetic query record `input_row` fed to the feature transform
(price, size_sqft 0, beds_int, bath_int 1, property_type, offering_type). -/
structure QueryRec where
  price : ℚ
  size_sqft : ℚ
  beds_int : Nat
  bath_int : Nat
  property_type : String
  offering_type : String
deriving DecidableEq, Repr

/-- A neighbor row after the scoring step, carrying the transient per-row
columns added in sections C and D of `recommend`. -/
structure Scored where
  row : Listing
  similarity_score : ℚ
  dist_km : ℚ
  geo_score : ℚ
  boosted_pop : ℚ
  pop_score : ℚ
  final_score : ℚ
deriving DecidableEq, Repr

/-- The JSON envelope returned by `recommend`. -/
inductive RecResponse where
  | err (message : String) : RecResponse
  | success (count : Nat) (data : List Scored) : RecResponse
deriving DecidableEq, Repr

/-- `leadsWith hay pat`: the character list `pat` occurs at the start of `hay`. -/
def leadsWith : List Char → List Char → Bool
  | _, [] => true
  | [], _ :: _ => false
  | a :: as, b :: bs => a == b && leadsWith as bs

/-- `hasSub pat hay`: `pat` occurs as a contiguous sublist of `hay`. -/
def hasSub (pat : List Char) : List Char → Bool
  | [] => leadsWith [] pat
  | c :: t => leadsWith (c :: t) pat || hasSub pat t

/-- Lowercased character list of a string: the model of Python `.lower()` and
of pandas `.str.lower()`. -/
def lowerData (s : String) : List Char :=
  s.data.map Char.toLower

/-- Whitespace test used by the model of Python `.strip()`. -/
def isSpaceChar (c : Char) : Bool :=
  c == ' ' || c == '\t' || c == '\n' || c == '\r'

/-- Drop leading whitespace characters. -/
def dropWS : List Char → List Char
  | [] => []
  | c :: t => if isSpaceChar c then dropWS t else c :: t

/-- Drop leading and trailing whitespace: the model of Python `.strip()`. -/
def trimWS (l : List Char) : List Char :=
  dropWS ((dropWS l.reverse).reverse)

/-- Python `str(x).lower().strip()` as applied to the raw query fields. -/
def lowerTrim (s : String) : List Char :=
  trimWS (lowerData s)

/-- Case-insensitive literal substring test.  Used only to model the fixed
region scope `.str.lower().str.contains('dubai')` of `app.py` line 76: that
call is also a regex search, but its pattern "dubai" has no metacharacter, so
the regex search coincides with this substring test
(`containsCI_dubai_matches_regex` below). -/
def containsCI (hay pat : String) : Bool :=
  hasSub (lowerData pat) (lowerData hay)

/-- One atom of the modelled regular-expression fragment: a literal character
or the dot wildcard. -/
inductive ReAtom where
  | lit (c : Char) : ReAtom
  | dot : ReAtom
deriving DecidableEq, Repr

/-- Quantifier attached to an atom: exactly one, `*` (zero or more), `+`
(one or more), or `?` (zero or one). -/
inductive ReQuant where
  | one : ReQuant
  | star : ReQuant
  | plus : ReQuant
  | opt : ReQuant
deriving DecidableEq, Repr

/-- The regex metacharacters of Python `re` other than the dot. -/
def metaChars : List Char :=
  ['^', '$', '*', '+', '?', '{', '}', '[', ']', '\\', '|', '(', ')']

/-- Classify one pattern character: the dot wildcard, a literal, or (for the
other metacharacters) the start of a construct outside the modelled
fragment. -/
def parseAtom (c : Char) : Option ReAtom :=
  if c == '.' then some .dot
  else if metaChars.contains c then none
  else some (.lit c)

/-- Parse a pattern string (as a character list) into the modelled fragment:
literals and dots, each optionally followed by one quantifier.  `none` is the
model of `re.error` (and of the unmodelled metacharacter constructs, which
are conservatively treated the same way). -/
def parseRe : List Char → Option (List (ReAtom × ReQuant))
  | [] => some []
  | [c] =>
    match parseAtom c with
    | none => none
    | some a => some [(a, .one)]
  | c :: q :: rest2 =>
    match parseAtom c with
    | none => none
    | some a =>
      if q == '*' then (parseRe rest2).map (fun t => (a, .star) :: t)
      else if q == '+' then (parseRe rest2).map (fun t => (a, .plus) :: t)
      else if q == '?' then (parseRe rest2).map (fun t => (a, .opt) :: t)
      else (parseRe (q :: rest2)).map (fun t => (a, .one) :: t)

/-- Whether an atom matches one character (the dot matches everything except
a newline, as in Python default mode). -/
def atomMatches (a : ReAtom) (c : Char) : Bool :=
  match a with
  | .lit l => c == l
  | .dot => c != '\n'

/-- Fuel-indexed matcher: whether a parsed pattern matches some prefix of the
character list (standard backtracking semantics; for a boolean result this
agrees with Python greedy matching).  Every recursive call strictly decreases
`pattern length + input length`, so any fuel exceeding that sum makes the
first equation unreachable. -/
def matchFuel : Nat → List (ReAtom × ReQuant) → List Char → Bool
  | 0, _, _ => false
  | _ + 1, [], _ => true
  | _ + 1, (_, .one) :: _, [] => false
  | f + 1, (a, .one) :: ps, c :: s => atomMatches a c && matchFuel f ps s
  | f + 1, (_, .opt) :: ps, [] => matchFuel f ps []
  | f + 1, (a, .opt) :: ps, c :: s =>
    matchFuel f ps (c :: s) || (atomMatches a c && matchFuel f ps s)
  | _ + 1, (_, .plus) :: _, [] => false
  | f + 1, (a, .plus) :: ps, c :: s =>
    atomMatches a c && matchFuel f ((a, .star) :: ps) s
  | f + 1, (_, .star) :: ps, [] => matchFuel f ps []
  | f + 1, (a, .star) :: ps, c :: s =>
    matchFuel f ps (c :: s) || (atomMatches a c && matchFuel f ((a, .star) :: ps) s)

/-- Whether a parsed pattern matches some prefix of the character list,
with sufficient fuel for the matcher to run to completion. -/
def matchHere (p : List (ReAtom × ReQuant)) (s : List Char) : Bool :=
  matchFuel (p.length + s.length + 1) p s

/-- Whether a parsed pattern matches at some position of the character list:
the model of `re.search`. -/
def searchRe (p : List (ReAtom × ReQuant)) : List Char → Bool
  | [] => matchHere p []
  | c :: t => matchHere p (c :: t) || searchRe p t

/-- Placeholder for the Python exception text `str(e)` surfaced when the
location-filter pattern is invalid; no claim depends on the message text. -/
def regexErrorMessage : String :=
  "re.error"

/-- The base-10 numeral denoted by a list of digit characters, in order:
the model of Python `int` applied to the joined non-empty digit string. -/
def digitsToNat (ds : List Char) : Nat :=
  ds.foldl (fun acc c => 10 * acc + (c.toNat - 48)) 0

/-- Bedroom-count parsing (`app.py` line 62):
`int` of the digit characters of `raw_beds` when it has any digit, else 0. -/
def bedsInt (raw : String) : Nat :=
  if raw.data.any Char.isDigit then digitsToNat (raw.data.filter Char.isDigit) else 0

/-- Median of a list of rationals, as pandas `Series.median()` computes it on a
non-empty series: sort; odd length takes the middle element, even length the
mean of the two middle elements. -/
def medianQ (l : List ℚ) : ℚ :=
  let s := l.mergeSort (fun a b => decide (a ≤ b))
  if l.length % 2 = 1 then s.getD (l.length / 2) 0
  else (s.getD (l.length / 2 - 1) 0 + s.getD (l.length / 2) 0) / 2

/-- `global_pop` / `pop_med` (`app.py` lines 137–138): the median
smart-popularity over rows of the full table with positive smart-popularity,
defaulting to 50 when no such row exists. -/
def globalPopMedian (table : List Listing) : ℚ :=
  let pos := (table.map (fun r => r.smart_popularity_score)).filter (fun x => decide (0 < x))
  if pos.isEmpty then 50 else medianQ pos

/-- `max_pop` (`app.py` line 139): the maximum of the smart-popularity column
(the table is non-empty whenever this is evaluated in the source). -/
def maxPopOf (table : List Listing) : ℚ :=
  match table.map (fun r => r.smart_popularity_score) with
  | [] => 0
  | x :: xs => xs.foldl max x

/-- Cold-start boost (`app.py` line 141): substitute the global median for a
fresh listing (≤ 14 days old) with zero smart-popularity; otherwise keep the
own smart-popularity of the listing. -/
def boostedPop (popMed : ℚ) (r : Listing) : ℚ :=
  if r.days_old ≤ 14 ∧ r.smart_popularity_score = 0 then popMed
  else r.smart_popularity_score

/-- `final_score` formula (`app.py` line 144):
`(similarity*0.4) + (geo*0.3) + (pop*0.3)`. -/
def finalScore (sim geo pop : ℚ) : ℚ :=
  sim * 0.4 + geo * 0.3 + pop * 0.3

/-- The deployment-default search center (Downtown Dubai), `app.py` lines 87–88. -/
def defaultCenter : ℚ × ℚ :=
  (25.10, 55.20)

/-- The rows of the table with non-degenerate coordinates whose
`location_name` is `name`: the group the Centroid Index averages over
(`app.py` lines 42–43). -/
def validAt (table : List Listing) (name : String) : List Listing :=
  (table.filter (fun r => r.latitude != 0 && r.longitude != 0)).filter
    (fun r => r.location_name == name)

/-- The Centroid Index lookup `location_centroids` (`app.py` lines 40–44):
per-location arithmetic mean of latitude and longitude over valid-coordinate
rows; a location with no valid row is absent (`none`). -/
def centroidFor (table : List Listing) (name : String) : Option (ℚ × ℚ) :=
  let g := validAt table name
  if g.isEmpty then none
  else some (((g.map (fun r => r.latitude)).sum) / (g.length : ℚ),
             ((g.map (fun r => r.longitude)).sum) / (g.length : ℚ))

/-- The smart-radius location filter, section B of `recommend`
(`app.py` lines 84–111).  Returns the surviving pool rows — each paired with
its `dist_to_center` annotation when one was produced — and the active search
center; `none` models the fallback raising `re.error` on an invalid filter
pattern.  A known centroid keeps rows at numeric distance ≤ 3 km and moves
the center to the centroid; an unknown location falls back to a
case-insensitive regex search of the filter against the full location path
(pandas `str.contains(req_loc, case=False, na=False)`, whose `regex` default
is `True`) and leaves the default center. -/
def locationStep (hv : ℚ → ℚ → ℚ → ℚ → ℚ) (table : List Listing)
    (req : Option String) (pool : List Listing) :
    Option (List (Listing × Option ℚ) × ℚ × ℚ) :=
  match req with
  | none => some (pool.map (fun r => (r, none)), defaultCenter)
  | some l =>
    if l = "" ∨ l = "All Locations" ∨ l = "Dubai" then
      some (pool.map (fun r => (r, none)), defaultCenter)
    else
      match centroidFor table l with
      | some c =>
        some (((pool.map (fun r => (r, hv c.1 c.2 r.latitude r.longitude))).filter
            (fun rd => decide (rd.2 ≤ 3))).map (fun rd => (rd.1, some rd.2)), c)
      | none =>
        match parseRe (lowerData l) with
        | some p =>
          some ((pool.filter
              (fun r => searchRe p (lowerData r.full_location_path))).map
            (fun r => (r, (none : Option ℚ))), defaultCenter)
        | none => none

/-- Sections A and B of `recommend` (`app.py` lines 67–111): offering/property
match, the fixed "dubai" region scope, the `size_sqft > 150` bad-data filter,
then the location step.  `none` models the location step raising `re.error`.
(In the source, `if not base_pool.empty` guards before
steps 2 and 3 only skip filtering an already-empty frame, which filtering
leaves empty anyway.) -/
def candidatePool (hv : ℚ → ℚ → ℚ → ℚ → ℚ) (table : List Listing) (q : Query) :
    Option (List (Listing × Option ℚ) × ℚ × ℚ) :=
  let raw_type := lowerTrim q.property_type
  let raw_offer := lowerTrim q.offering_type
  let target_offer :=
    if ["rent".data, "lease".data, "2".data].contains raw_offer then "2".data
    else "1".data
  let pool0 := table.filter
    (fun r => r.offering_type.data == target_offer && r.property_type.data == raw_type)
  let pool1 := pool0.filter (fun r => containsCI r.full_location_path "dubai")
  let pool2 := pool1.filter (fun r => decide ((150 : ℚ) < r.size_sqft))
  locationStep hv table q.location_filter pool2

/-- The Similarity Ranker, section C of `recommend` (`app.py` lines 117–129):
an sklearn cosine `NearestNeighbors` index over the pool, queried for
`min(pool size, 20)` neighbors, returns the `k` pool rows of smallest cosine
distance to the query vector in ascending distance order; each kept row is
paired with `similarity_score = 1 - distance`. -/
def rankNeighbors (cosDist : QueryRec → Listing → ℚ) (qr : QueryRec)
    (pool : List Listing) : List (Listing × ℚ) :=
  let k := min pool.length 20
  ((((pool.map (fun r => (r, cosDist qr r))).mergeSort
      (fun a b => decide (a.2 ≤ b.2))).take k).map (fun rd => (rd.1, 1 - rd.2)))

/-- Section D of `recommend` (`app.py` lines 131–144) for one neighbor row:
distance to the active center, `geo_score = 1/(dist+1)`, cold-start boosted
popularity, `pop_score = log1p(boosted)/log1p(max_pop)` (0 when `max_pop ≤ 0`),
and the blended `final_score`. -/
def scoreOne (hv : ℚ → ℚ → ℚ → ℚ → ℚ) (log1p : ℚ → ℚ) (center : ℚ × ℚ)
    (popMed maxPop : ℚ) (rd : Listing × ℚ) : Scored :=
  let d := hv center.1 center.2 rd.1.latitude rd.1.longitude
  let geo := 1 / (d + 1)
  let boosted := boostedPop popMed rd.1
  let pop := if 0 < maxPop then log1p boosted / log1p maxPop else 0
  { row := rd.1
    similarity_score := rd.2
    dist_km := d
    geo_score := geo
    boosted_pop := boosted
    pop_score := pop
    final_score := finalScore rd.2 geo pop }

/-- The `/recommend` endpoint (`app.py` lines 52–155): short-circuit when the
model is not loaded, build the candidate pool (an invalid location-filter
pattern raises inside the `try` and is surfaced as an error envelope by the
`except` at lines 157–159), return a success with zero results when the pool
is empty, otherwise rank, score, sort by `final_score` descending and keep
the top 5. -/
def recommend (hv : ℚ → ℚ → ℚ → ℚ → ℚ) (log1p : ℚ → ℚ)
    (cosDist : QueryRec → Listing → ℚ) (table : List Listing) (q : Query) :
    RecResponse :=
  if table.isEmpty then .err "Model not loaded."
  else
    let raw_type := lowerTrim q.property_type
    let raw_offer := lowerTrim q.offering_type
    let target_offer :=
      if ["rent".data, "lease".data, "2".data].contains raw_offer then "2".data
      else "1".data
    match candidatePool hv table q with
    | none => .err regexErrorMessage
    | some step =>
      let pool := step.1.map Prod.fst
      if pool.isEmpty then .success 0 []
      else
        let qr : QueryRec :=
          { price := q.price, size_sqft := 0, beds_int := bedsInt q.bedrooms,
            bath_int := 1, property_type := String.mk raw_type,
            offering_type := String.mk target_offer }
        let neighbors := rankNeighbors cosDist qr pool
        let popMed := globalPopMedian table
        let maxPop := maxPopOf table
        let scored := neighbors.map (scoreOne hv log1p step.2 popMed maxPop)
        let ranked := (scored.mergeSort
          (fun a b => decide (b.final_score ≤ a.final_score))).take 5
        .success ranked.length ranked

/-- A rent apartment listing in Dubai Marina used as concrete test data. -/
def sampleA : Listing :=
  { property_listing_id := 1, price := 120000, size_sqft := 900, beds_int := 2,
    bath_int := 1, property_type := "apartment", offering_type := "2",
    latitude := 25, longitude := 55, location_name := "Dubai Marina",
    full_location_path := "UAE > Dubai > Dubai Marina",
    smart_popularity_score := 0, days_old := 30 }

/-- A fresh (5 days old) zero-popularity listing used as concrete test data. -/
def sampleFresh : Listing :=
  { property_listing_id := 2, price := 90000, size_sqft := 700, beds_int := 1,
    bath_int := 1, property_type := "apartment", offering_type := "2",
    latitude := 26, longitude := 56, location_name := "JVC",
    full_location_path := "UAE > Dubai > JVC",
    smart_popularity_score := 0, days_old := 5 }

/-- A concrete rent-apartment query with no location filter. -/
def sampleQuery : Query :=
  { price := 120000, bedrooms := "2 Beds", property_type := "Apartment",
    offering_type := "Rent", location_filter := none }

/-- A concrete query whose property type matches no sample listing. -/
def villaQuery : Query :=
  { price := 500000, bedrooms := "4", property_type := "Villa",
    offering_type := "Rent", location_filter := none }

/-- The synthetic query record corresponding to `sampleQuery`. -/
def sampleQR : QueryRec :=
  { price := 120000, size_sqft := 0, beds_int := 2, bath_int := 1,
    property_type := "apartment", offering_type := "2" }

/-- Degrees to radians (`np.radians`). -/
noncomputable def radians (x : ℝ) : ℝ :=
  x * Real.pi / 180

/-- The ideal real-valued haversine distance of `calculate_haversine`
(`app.py` lines 21–25): angles in degrees, Earth radius 6371 km. -/
noncomputable def calculate_haversine (lat1 lon1 lat2 lon2 : ℝ) : ℝ :=
  let a := Real.sin ((radians lat2 - radians lat1) / 2) ^ 2 +
    Real.cos (radians lat1) * Real.cos (radians lat2) *
      Real.sin ((radians lon2 - radians lon1) / 2) ^ 2
  2 * Real.arcsin (Real.sqrt a) * 6371

/-- C2: every scored neighbor row satisfies
`final_score = 0.4 * similarity_score + 0.3 * geo_score + 0.3 * pop_score`,
and whenever the three component scores each lie in `[0, 1]` the final score
lies in `[0, 1]`. -/
theorem finalScore_blend_and_bounds :
    (∀ (hv : ℚ → ℚ → ℚ → ℚ → ℚ) (log1p : ℚ → ℚ) (center : ℚ × ℚ)
      (popMed maxPop : ℚ) (rd : Listing × ℚ),
      (scoreOne hv log1p center popMed maxPop rd).final_score =
        0.4 * (scoreOne hv log1p center popMed maxPop rd).similarity_score +
        0.3 * (scoreOne hv log1p center popMed maxPop rd).geo_score +
        0.3 * (scoreOne hv log1p center popMed maxPop rd).pop_score) ∧
    (∀ sim geo pop : ℚ, 0 ≤ sim → sim ≤ 1 → 0 ≤ geo → geo ≤ 1 →
      0 ≤ pop → pop ≤ 1 →
      0 ≤ finalScore sim geo pop ∧ finalScore sim geo pop ≤ 1) := by
  constructor
  · intro hv log1p center popMed maxPop rd
    simp only [scoreOne, finalScore]
    ring
  · intro sim geo pop h1 h2 h3 h4 h5 h6
    simp only [finalScore]
    constructor <;> nlinarith

/-- Witness for `finalScore_blend_and_bounds` at component scores `(1, 1/2, 0)`. -/
theorem finalScore_blend_and_bounds_witness :
    0 ≤ finalScore 1 (1/2) 0 ∧ finalScore 1 (1/2) 0 ≤ 1 :=
  finalScore_blend_and_bounds.2 1 (1/2) 0 (by norm_num) (by norm_num)
    (by norm_num) (by norm_num) (by norm_num) (by norm_num)

/-- C3: with the working median taken as `globalPopMedian` of the full table
(median of positive smart-popularity, default 50), a neighbor at most 14 days
old with zero smart-popularity gets the global median as its boosted
popularity, and every other neighbor keeps its own smart-popularity. -/
theorem boostedPop_cold_start :
    ∀ (table : List Listing) (r : Listing),
      (r.days_old ≤ 14 → r.smart_popularity_score = 0 →
        boostedPop (globalPopMedian table) r = globalPopMedian table) ∧
      (¬ (r.days_old ≤ 14 ∧ r.smart_popularity_score = 0) →
        boostedPop (globalPopMedian table) r = r.smart_popularity_score) := by
  intro table r
  constructor
  · intro h1 h2
    simp [boostedPop, h1, h2]
  · intro h
    simp [boostedPop, h]

/-- Witness for `boostedPop_cold_start`: over the table `[sampleA, sampleFresh]`
the 5-day-old zero-popularity listing is boosted to the global median, while
the 30-day-old zero-popularity listing keeps boosted popularity 0. -/
theorem boostedPop_cold_start_witness :
    boostedPop (globalPopMedian [sampleA, sampleFresh]) sampleFresh =
        globalPopMedian [sampleA, sampleFresh] ∧
      boostedPop (globalPopMedian [sampleA, sampleFresh]) sampleA = 0 := by
  constructor
  · exact (boostedPop_cold_start [sampleA, sampleFresh] sampleFresh).1
      (by norm_num [sampleFresh]) (by norm_num [sampleFresh])
  · exact ((boostedPop_cold_start [sampleA, sampleFresh] sampleA).2
      (by norm_num [sampleA])).trans (by norm_num [sampleA])

/-- C6: the Centroid Index maps a location with at least one valid-coordinate
listing to the independent arithmetic means of latitude and longitude over
exactly those listings, is undefined (absent) for a location with none, and
maps a location with exactly one valid-coordinate listing to the coordinate
of that listing exactly. -/
theorem centroidFor_spec :
    ∀ (table : List Listing) (name : String),
      (validAt table name = [] → centroidFor table name = none) ∧
      (validAt table name ≠ [] → centroidFor table name =
        some ((((validAt table name).map (fun r => r.latitude)).sum) /
                ((validAt table name).length : ℚ),
              (((validAt table name).map (fun r => r.longitude)).sum) /
                ((validAt table name).length : ℚ))) ∧
      (∀ r : Listing, validAt table name = [r] →
        centroidFor table name = some (r.latitude, r.longitude)) := by
  intro table name
  refine ⟨?_, ?_, ?_⟩
  · intro h
    simp [centroidFor, h]
  · intro h
    simp [centroidFor, List.isEmpty_iff, h]
  · intro r h
    simp [centroidFor, h]

/-- Witness for `centroidFor_spec`: over `[sampleA, sampleFresh]`, the location
"Dubai Marina" has the single valid listing `sampleA` and its centroid is
exactly the coordinate of `sampleA`, while "Nowhere" has no listing and is absent. -/
theorem centroidFor_spec_witness :
    centroidFor [sampleA, sampleFresh] "Dubai Marina" = some (25, 55) ∧
      centroidFor [sampleA, sampleFresh] "Nowhere" = none := by
  constructor
  · exact ((centroidFor_spec [sampleA, sampleFresh] "Dubai Marina").2.2 sampleA
      (by decide)).trans (by decide)
  · exact (centroidFor_spec [sampleA, sampleFresh] "Nowhere").1 (by decide)

/-- C8: with an empty Listings Table every recommend call returns the error
response "Model not loaded.", for every query and every instantiation of the
numeric parameters — no filtering, ranking or scoring is reached. -/
theorem recommend_model_not_loaded :
    ∀ (hv : ℚ → ℚ → ℚ → ℚ → ℚ) (log1p : ℚ → ℚ)
      (cosDist : QueryRec → Listing → ℚ) (q : Query),
      recommend hv log1p cosDist [] q = .err "Model not loaded." := by
  intro hv log1p cosDist q
  rfl

/-- C9: the haversine distance from any coordinate pair to itself is 0, and
the haversine distance is symmetric in its two coordinate pairs. -/
theorem haversine_self_and_symm :
    ∀ lat1 lon1 lat2 lon2 : ℝ,
      calculate_haversine lat1 lon1 lat1 lon1 = 0 ∧
      calculate_haversine lat1 lon1 lat2 lon2 =
        calculate_haversine lat2 lon2 lat1 lon1 := by
  have key : ∀ x y : ℝ,
      Real.sin ((x - y) / 2) ^ 2 = Real.sin ((y - x) / 2) ^ 2 := by
    intro x y
    rw [show (x - y) / 2 = -((y - x) / 2) by ring, Real.sin_neg, neg_sq]
  intro lat1 lon1 lat2 lon2
  constructor
  · simp [calculate_haversine]
  · simp only [calculate_haversine]
    rw [key (radians lat2) (radians lat1), key (radians lon2) (radians lon1),
      mul_comm (Real.cos (radians lat1)) (Real.cos (radians lat2))]

/-- C10 counterexample: the input "0 Beds" contains a digit yet parses to
`beds_int = 0`, so it is not true that only strings with no digit at all
yield 0. -/
theorem bedsInt_zero_with_digit :
    ("0 Beds".data.any Char.isDigit) = true ∧ bedsInt "0 Beds" = 0 := by
  constructor
  · decide
  · decide

/-- C10 (amended): a bedrooms string containing at least one digit parses to
the base-10 number formed by its digit characters in order ("2 Beds" gives 2,
"1 of 2" gives 12), a string with no digit parses to 0, and a digit-containing
string parses to 0 exactly when its digits concatenate to 0. -/
theorem bedsInt_concatenates_digits :
    ∀ s : String,
      (s.data.any Char.isDigit = true →
        bedsInt s = digitsToNat (s.data.filter Char.isDigit)) ∧
      (s.data.any Char.isDigit = false → bedsInt s = 0) ∧
      bedsInt "2 Beds" = 2 ∧ bedsInt "1 of 2" = 12 ∧ bedsInt "Studio" = 0 := by
  intro s
  refine ⟨?_, ?_, by decide, by decide, by decide⟩
  · intro h
    simp [bedsInt, h]
  · intro h
    simp [bedsInt, h]

/-- Witness for `bedsInt_concatenates_digits` at the input "1 of 2". -/
theorem bedsInt_concatenates_digits_witness :
    bedsInt "1 of 2" = digitsToNat ("1 of 2".data.filter Char.isDigit) :=
  (bedsInt_concatenates_digits "1 of 2").1 (by decide)

/-- With enough fuel, a pattern of plain literal characters matches a prefix
of `s` exactly when it occurs literally at the start of `s`. -/
theorem matchFuel_lits :
    ∀ (cs : List Char) (f : Nat) (s : List Char), cs.length < f →
      matchFuel f (cs.map (fun c => (ReAtom.lit c, ReQuant.one))) s =
        leadsWith s cs := by
  intro cs
  induction cs with
  | nil =>
    intro f s hf
    cases f with
    | zero => simp at hf
    | succ f => cases s <;> rfl
  | cons c cs ih =>
    intro f s hf
    cases f with
    | zero => simp at hf
    | succ f =>
      have hf2 : cs.length < f := by
        simp only [List.length_cons] at hf
        omega
      cases s with
      | nil => rfl
      | cons a t => simp [matchFuel, leadsWith, atomMatches, ih f t hf2]

/-- A pattern of plain literal characters matches a prefix of `s` exactly
when it occurs literally at the start of `s`. -/
theorem matchHere_lits :
    ∀ (cs s : List Char),
      matchHere (cs.map (fun c => (ReAtom.lit c, ReQuant.one))) s =
        leadsWith s cs := by
  intro cs s
  have h := matchFuel_lits cs
    ((cs.map (fun c => (ReAtom.lit c, ReQuant.one))).length + s.length + 1) s
    (by rw [List.length_map]; omega)
  simpa [matchHere] using h

/-- Searching for a pattern of plain literal characters is the literal
substring test. -/
theorem searchRe_lits :
    ∀ (cs s : List Char),
      searchRe (cs.map (fun c => (ReAtom.lit c, ReQuant.one))) s =
        hasSub cs s := by
  intro cs s
  induction s with
  | nil => simp [searchRe, hasSub, matchHere_lits]
  | cons c t ih => simp [searchRe, hasSub, matchHere_lits, ih]

/-- The fixed region pattern "dubai" has no metacharacter, so the regex
search the source performs at `app.py` line 76 coincides with the literal
substring test `containsCI` used to model it. -/
theorem containsCI_dubai_matches_regex :
    ∀ s : String,
      (parseRe (lowerData "dubai")).map (fun p => searchRe p (lowerData s)) =
        some (containsCI s "dubai") := by
  intro s
  have hp : parseRe (lowerData "dubai") =
      some ("dubai".data.map (fun c => (ReAtom.lit c, ReQuant.one))) := by
    decide
  have hl : lowerData "dubai" = "dubai".data := by decide
  rw [hp]
  show some (searchRe ("dubai".data.map (fun c => (ReAtom.lit c, ReQuant.one)))
      (lowerData s)) = some (containsCI s "dubai")
  rw [searchRe_lits]
  simp only [containsCI, hl]

/-- C4: on a non-empty candidate pool the Similarity Ranker returns exactly
`min (pool size) 20` rows — in particular never more — and every returned row
comes from the pool (rows outside the nearest-neighbor selection are
dropped before scoring). -/
theorem rankNeighbors_cap :
    ∀ (cosDist : QueryRec → Listing → ℚ) (qr : QueryRec) (pool : List Listing),
      pool ≠ [] →
      (rankNeighbors cosDist qr pool).length = min pool.length 20 ∧
      ∀ x ∈ rankNeighbors cosDist qr pool, x.1 ∈ pool := by
  intro cosDist qr pool _
  constructor
  · simp only [rankNeighbors, List.length_map, List.length_take,
      List.length_mergeSort]
    omega
  · intro x hx
    simp only [rankNeighbors, List.mem_map] at hx
    obtain ⟨rd, hrd, rfl⟩ := hx
    have h1 : rd ∈ (pool.map (fun r => (r, cosDist qr r))).mergeSort
        (fun a b => decide (a.2 ≤ b.2)) := List.mem_of_mem_take hrd
    have h2 : rd ∈ pool.map (fun r => (r, cosDist qr r)) :=
      ((List.mergeSort_perm _ _).mem_iff).mp h1
    obtain ⟨r, hr, rfl⟩ := List.mem_map.mp h2
    exact hr

/-- Witness for `rankNeighbors_cap` on the two-listing pool
`[sampleA, sampleFresh]` with a constant cosine distance. -/
theorem rankNeighbors_cap_witness :
    (rankNeighbors (fun _ _ => (0 : ℚ)) sampleQR [sampleA, sampleFresh]).length =
        min 2 20 ∧
      ∀ x ∈ rankNeighbors (fun _ _ => (0 : ℚ)) sampleQR [sampleA, sampleFresh],
        x.1 ∈ [sampleA, sampleFresh] :=
  rankNeighbors_cap (fun _ _ => (0 : ℚ)) sampleQR [sampleA, sampleFresh]
    (List.cons_ne_nil _ _)

/-- Sorting a scored list by final score descending and keeping the first 5
yields a list sorted descending by final score. -/
theorem take5_sorted (l : List Scored) :
    ((l.mergeSort (fun a b => decide (b.final_score ≤ a.final_score))).take
        5).Sorted (fun a b => b.final_score ≤ a.final_score) := by
  have htrans : ∀ a b c : Scored,
      decide (b.final_score ≤ a.final_score) = true →
      decide (c.final_score ≤ b.final_score) = true →
      decide (c.final_score ≤ a.final_score) = true := by
    intro a b c hab hbc
    simp only [decide_eq_true_eq] at hab hbc ⊢
    exact hbc.trans hab
  have htotal : ∀ a b : Scored,
      (decide (b.final_score ≤ a.final_score) ||
        decide (a.final_score ≤ b.final_score)) = true := by
    intro a b
    simpa using le_total b.final_score a.final_score
  have hs := List.sorted_mergeSort htrans htotal l
  have hs2 : (l.mergeSort
      (fun a b => decide (b.final_score ≤ a.final_score))).Sorted
      (fun a b => b.final_score ≤ a.final_score) := by
    refine hs.imp ?_
    intro a b h
    exact of_decide_eq_true h
  exact hs2.sublist (List.take_sublist 5 _)

/-- C5: every successful recommend response carries at most 5 records, in
descending order of final score. -/
theorem recommend_top5_sorted :
    ∀ (hv : ℚ → ℚ → ℚ → ℚ → ℚ) (log1p : ℚ → ℚ)
      (cosDist : QueryRec → Listing → ℚ) (table : List Listing) (q : Query)
      (c : Nat) (d : List Scored),
      recommend hv log1p cosDist table q = .success c d →
      d.length ≤ 5 ∧ d.Sorted (fun a b => b.final_score ≤ a.final_score) := by
  intro hv log1p cosDist table q c d h
  simp only [recommend] at h
  split at h
  · exact RecResponse.noConfusion h
  · split at h
    · exact RecResponse.noConfusion h
    · split at h
      · injection h with h1 h2
        subst h2
        exact ⟨by simp, by simp⟩
      · injection h with h1 h2
        subst h2
        exact ⟨List.length_take_le 5 _, take5_sorted _⟩

/-- Witness for `recommend_top5_sorted`: a concrete successful call on the
one-listing table `[sampleA]` returns one record, trivially within the bound
and sorted. -/
theorem recommend_top5_sorted_witness :
    ([⟨sampleA, 1, 0, 1, 0, 0, 7/10⟩] : List Scored).length ≤ 5 ∧
      ([⟨sampleA, 1, 0, 1, 0, 0, 7/10⟩] : List Scored).Sorted
        (fun a b => b.final_score ≤ a.final_score) :=
  recommend_top5_sorted (fun _ _ _ _ => 0) (fun x => x) (fun _ _ => 0)
    [sampleA] sampleQuery 1 [⟨sampleA, 1, 0, 1, 0, 0, 7/10⟩] (by
      have hpool : candidatePool (fun _ _ _ _ => (0 : ℚ)) [sampleA]
          sampleQuery = some ([(sampleA, none)], defaultCenter) := rfl
      simp only [recommend, hpool]
      norm_num [rankNeighbors, scoreOne, boostedPop, finalScore,
        globalPopMedian, maxPopOf, sampleA, List.filter])

/-- C7: when the table is loaded and filtering completes with an empty
candidate pool, recommend returns a success with count 0 and empty data, not
an error. -/
theorem recommend_empty_pool_success :
    ∀ (hv : ℚ → ℚ → ℚ → ℚ → ℚ) (log1p : ℚ → ℚ)
      (cosDist : QueryRec → Listing → ℚ) (table : List Listing) (q : Query)
      (step : List (Listing × Option ℚ) × ℚ × ℚ),
      table ≠ [] → candidatePool hv table q = some step → step.1 = [] →
      recommend hv log1p cosDist table q = .success 0 [] := by
  intro hv log1p cosDist table q step ht hs hp
  simp [recommend, hs, hp, List.isEmpty_iff, ht]

/-- Witness for `recommend_empty_pool_success`: a villa query against the
apartment-only table `[sampleA]` empties the pool and still succeeds with
zero results. -/
theorem recommend_empty_pool_success_witness :
    recommend (fun _ _ _ _ => (0 : ℚ)) (fun x => x) (fun _ _ => 0) [sampleA]
        villaQuery = .success 0 [] :=
  recommend_empty_pool_success (fun _ _ _ _ => (0 : ℚ)) (fun x => x)
    (fun _ _ => 0) [sampleA] villaQuery ([], defaultCenter)
    (List.cons_ne_nil _ _) rfl rfl

end PFRec
